import Mathlib

/-!
Verification of the RealEstate agent workflow (workflow.py, scraper.py,
uagent_bridge.py) against its natural-language specification.

Shallow embedding conventions:
* Python floats (timestamps, prices fed through pandas) are modelled as exact
  rationals (`ℚ`) resp. integers (`Int`).
* A pandas DataFrame is a list of typed rows plus the list of live column
  names; a missing value (NaN) is `none`.
* External collaborators (the `scrape_property` library call, the Google
  Sheets exporter, the language-model planner, the wall clock) are oracle
  parameters of the embedded functions.
* Exceptions are modelled with `Except` / explicit error constructors.
-/

namespace RealEstate

/-- scraper.py `SearchInput`: structured search criteria. -/
structure SearchInput where
  location : String
  listing_type : String := "for_sale"
  min_price : Option Int := none
  max_price : Option Int := none
  min_beds : Option Int := none
  max_beds : Option Int := none
  min_sqft : Option Int := none
  max_sqft : Option Int := none
  property_type : Option (List String) := none
  past_days : Int := 30
deriving DecidableEq

/-- One row of the pandas DataFrame produced by the scraping collaborator.
`none` models a missing value (NaN). -/
structure Row where
  property_url : Option String := none
  list_price : Option Int := none
  street_address : Option String := none
  city : Option String := none
  state : Option String := none
  zip_code : Option String := none
  beds : Option Int := none
  full_baths : Option Int := none
  sqft : Option Int := none
  style : Option String := none
  site_name : Option String := none
deriving DecidableEq

/-- A pandas DataFrame: the live column names plus the rows.  Column
selection is tracked through `cols`; row fields outside `cols` are dead
values never read by the embedded code. -/
structure DataFrame where
  cols : List String
  rows : List Row
deriving DecidableEq

/-- Keep rows whose value under `get` is `≥ bound`; a NaN comparison is
False in pandas, so a `none` value drops the row. -/
def filterGe (get : Row → Option Int) (bound : Int) (rows : List Row) : List Row :=
  rows.filter fun r => match get r with
    | some v => decide (bound ≤ v)
    | none => false

/-- Keep rows whose value under `get` is `≤ bound`; `none` (NaN) drops the row. -/
def filterLe (get : Row → Option Int) (bound : Int) (rows : List Row) : List Row :=
  rows.filter fun r => match get r with
    | some v => decide (v ≤ bound)
    | none => false

/-- `if search.min_price: ...` — a bound is applied only when it is present
and non-zero (Python truthiness: 0 is falsy, so a zero bound is skipped). -/
def applyOptFilter (bound : Option Int) (f : Int → List Row → List Row)
    (rows : List Row) : List Row :=
  match bound with
  | some b => if b = 0 then rows else f b rows
  | none => rows

/-- scraper.py lines 91-102: the user-filter block of `fetch_listings`. -/
def applyFilters (search : SearchInput) (rows : List Row) : List Row :=
  let rows := applyOptFilter search.min_price (filterGe Row.list_price) rows
  let rows := applyOptFilter search.max_price (filterLe Row.list_price) rows
  let rows := applyOptFilter search.min_beds (filterGe Row.beds) rows
  let rows := applyOptFilter search.max_beds (filterLe Row.beds) rows
  let rows := applyOptFilter search.min_sqft (filterGe Row.sqft) rows
  let rows := applyOptFilter search.max_sqft (filterLe Row.sqft) rows
  rows

/-- scraper.py `keep_cols`: source column name → renamed output column. -/
def keepCols : List (String × String) :=
  [("property_url", "Listing Link"),
   ("list_price", "Price ($)"),
   ("street_address", "Street Address"),
   ("city", "City"),
   ("state", "State"),
   ("zip_code", "Zip Code"),
   ("beds", "Beds"),
   ("full_baths", "Baths"),
   ("sqft", "Size (sqft)"),
   ("style", "Property Type"),
   ("site_name", "Source")]

/-- Sort key for `result.sort_values("Price ($)", ascending=True)`:
ascending price, NaN placed last (pandas default). -/
def priceLE (a b : Row) : Bool :=
  match a.list_price, b.list_price with
  | some x, some y => decide (x ≤ y)
  | some _, none => true
  | none, some _ => false
  | none, none => true

/-- scraper.py `fetch_listings`, with the result of the external
`scrape_property` call passed in as `properties`. -/
def fetch_listings (search : SearchInput) (properties : DataFrame) : DataFrame :=
  if properties.rows.isEmpty then properties
  else
    let filtered := applyFilters search properties.rows
    let availCols := (keepCols.filter (fun p => p.1 ∈ properties.cols)).map (·.2)
    let sorted := if "Price ($)" ∈ availCols then filtered.mergeSort priceLE else filtered
    ⟨availCols, sorted.take 20⟩

/-- The tool input dictionary supplied by the planner: every field may be
absent (`tool_input.get` then yields the call-site default). -/
structure ToolInput where
  location : Option String := none
  listing_type : Option String := none
  min_price : Option Int := none
  max_price : Option Int := none
  min_beds : Option Int := none
  max_beds : Option Int := none
  min_sqft : Option Int := none
  max_sqft : Option Int := none
  property_type : Option (List String) := none
  past_days : Option Int := none
deriving DecidableEq

/-- workflow.py `_RunState`: mutable state shared within one workflow run. -/
structure RunState where
  search : Option SearchInput := none
  user_id : String := "default"
  df : Option DataFrame := none
  sheet_url : String := ""
  num_results : Nat := 0
  last_error : String := ""
deriving DecidableEq

/-- The structured content of the JSON string `_execute_tool` returns.
Interpolated numbers (the wait time, counts, prices) are carried as
structured fields rather than rendered text. -/
inductive ToolOutcome where
  | rateLimited (wait : ℚ)
  | noResults (message : String) (location : String)
  | searchSuccess (num : Nat) (location listing : String)
      (priceMin priceMax priceAvg : Option Int) (preview : List Row)
  | searchError (error : String)
  | sheetSuccess (sheetUrl : String) (numRows : Nat)
  | authRequired (error : String)
  | sheetError (error : String)
  | unknownTool (name : String)
deriving DecidableEq

/-- The "status" field of the returned JSON object (the unknown-tool reply
carries no status field, modelled as the empty string). -/
def ToolOutcome.status : ToolOutcome → String
  | .rateLimited _ => "rate_limited"
  | .noResults _ _ => "no_results"
  | .searchSuccess _ _ _ _ _ _ _ => "success"
  | .searchError _ => "error"
  | .sheetSuccess _ _ => "success"
  | .authRequired _ => "auth_required"
  | .sheetError _ => "error"
  | .unknownTool _ => ""

/-- Python `round(x, 1)`: round to one decimal digit, ties to even
(floats modelled as exact rationals). -/
def pyRound1 (q : ℚ) : ℚ :=
  let x := q * 10
  let f : Int := Int.floor x
  let frac := x - f
  let n : Int :=
    if frac < 1/2 then f
    else if 1/2 < frac then f + 1
    else if f % 2 = 0 then f else f + 1
  (n : ℚ) / 10

/-- Python `int()` on a float: truncation toward zero. -/
def intTrunc (q : ℚ) : Int := if 0 ≤ q then Int.floor q else Int.ceil q

/-- `int(df["Price ($)"].min())` guarded by column presence; pandas skips
NaN values.  The all-NaN corner (a Python ValueError) is conflated with
column absence as `none`. -/
def priceMinOf (df : DataFrame) : Option Int :=
  if "Price ($)" ∈ df.cols then (df.rows.filterMap Row.list_price).min? else none

/-- `int(df["Price ($)"].max())` guarded by column presence. -/
def priceMaxOf (df : DataFrame) : Option Int :=
  if "Price ($)" ∈ df.cols then (df.rows.filterMap Row.list_price).max? else none

/-- `int(df["Price ($)"].mean())` guarded by column presence. -/
def priceAvgOf (df : DataFrame) : Option Int :=
  if "Price ($)" ∈ df.cols then
    let prices := df.rows.filterMap Row.list_price
    if prices.length = 0 then none
    else some (intTrunc ((prices.sum : ℚ) / (prices.length : ℚ)))
  else none

/-- Observable side effects of one `_execute_tool` call, in order. -/
inductive Event where
  | stampTime (t : ℚ)
  | callFetch (search : SearchInput)
  | callExport (df : DataFrame) (location listing userId : String)
deriving DecidableEq

/-- Result of the Google Sheets collaborator (`create_listings_sheet`):
a URL, a `GoogleAuthRequiredError`, or any other exception. -/
inductive SheetResult where
  | ok (url : String)
  | authRequired (message : String)
  | failure (message : String)
deriving DecidableEq

/-- Output of an `_execute_tool` call: the structured reply, the new run
state, the new global last-search timestamp, and the effect trace. -/
structure ExecOut where
  outcome : ToolOutcome
  state : RunState
  lastSearchTime : ℚ
  trace : List Event
deriving DecidableEq

/-- workflow.py `SEARCH_COOLDOWN_SECONDS`. -/
def SEARCH_COOLDOWN_SECONDS : ℚ := 8

/-- workflow.py lines 192-204: build the `SearchInput` for a search tool
call from the planner-supplied input, the run state providing the location
fallback only. -/
def mergedSearch (input : ToolInput) (state : RunState) : SearchInput where
  location := input.location.getD (match state.search with | some s => s.location | none => "")
  listing_type := input.listing_type.getD "for_sale"
  min_price := input.min_price
  max_price := input.max_price
  min_beds := input.min_beds
  max_beds := input.max_beds
  min_sqft := input.min_sqft
  max_sqft := input.max_sqft
  property_type := input.property_type
  past_days := input.past_days.getD 30

/-- workflow.py `_execute_tool`.  `scrape` is the external
`scrape_property` collaborator (`.error` = exception text), `sheets` the
`create_listings_sheet` collaborator.  `lastSearchTime` is the global
`_last_search_time`; `now` and `now2` are the two successive `time.time()`
samples taken on the search path (gate check and stamp). -/
def executeTool (scrape : SearchInput → Except String DataFrame)
    (sheets : DataFrame → String → String → String → SheetResult)
    (tool_name : String) (tool_input : ToolInput) (state : RunState)
    (lastSearchTime now now2 : ℚ) : ExecOut :=
  if tool_name = "search_listings" then
    let elapsed := now - lastSearchTime
    if 0 < lastSearchTime ∧ elapsed < SEARCH_COOLDOWN_SECONDS then
      { outcome := .rateLimited (pyRound1 (SEARCH_COOLDOWN_SECONDS - elapsed)),
        state := state, lastSearchTime := lastSearchTime, trace := [] }
    else
      let search := mergedSearch tool_input state
      let state := { state with search := some search }
      match scrape search with
      | .error e =>
        { outcome := .searchError e,
          state := { state with df := none, num_results := 0, last_error := e },
          lastSearchTime := now2,
          trace := [.stampTime now2, .callFetch search] }
      | .ok properties =>
        let df := fetch_listings search properties
        let state := { state with df := some df, num_results := df.rows.length, last_error := "" }
        if df.rows.isEmpty then
          { outcome := .noResults ("No listings found in " ++ search.location ++ " with the given filters.") search.location,
            state := state, lastSearchTime := now2,
            trace := [.stampTime now2, .callFetch search] }
        else
          { outcome := .searchSuccess df.rows.length search.location search.listing_type
              (priceMinOf df) (priceMaxOf df) (priceAvgOf df) (df.rows.take 5),
            state := state, lastSearchTime := now2,
            trace := [.stampTime now2, .callFetch search] }
  else if tool_name = "create_sheet" then
    match state.df with
    | none =>
      { outcome := .sheetError "No listings data — run search_listings first.",
        state := state, lastSearchTime := lastSearchTime, trace := [] }
    | some df =>
      if df.rows.isEmpty then
        { outcome := .sheetError "No listings data — run search_listings first.",
          state := state, lastSearchTime := lastSearchTime, trace := [] }
      else
        match state.search with
        | none =>
          -- Python raises AttributeError evaluating state.search.location inside
          -- the try block; the generic except handler turns it into a status
          -- "error" outcome and records it in last_error.
          { outcome := .sheetError "AttributeError: NoneType object has no attribute location",
            state := { state with last_error := "AttributeError: NoneType object has no attribute location" },
            lastSearchTime := lastSearchTime, trace := [] }
        | some s =>
          match sheets df s.location s.listing_type state.user_id with
          | .ok url =>
            { outcome := .sheetSuccess url df.rows.length,
              state := { state with sheet_url := url, last_error := "" },
              lastSearchTime := lastSearchTime,
              trace := [.callExport df s.location s.listing_type state.user_id] }
          | .authRequired e =>
            { outcome := .authRequired e,
              state := { state with last_error := e },
              lastSearchTime := lastSearchTime,
              trace := [.callExport df s.location s.listing_type state.user_id] }
          | .failure e =>
            { outcome := .sheetError e,
              state := { state with last_error := e },
              lastSearchTime := lastSearchTime,
              trace := [.callExport df s.location s.listing_type state.user_id] }
  else
    { outcome := .unknownTool tool_name,
      state := state, lastSearchTime := lastSearchTime, trace := [] }

/-- A content block of a Messages-API turn. -/
inductive Block where
  | text (s : String)
  | toolUse (id name : String) (input : ToolInput)
  | toolResult (tool_use_id : String) (content : ToolOutcome)
deriving DecidableEq

/-- Message content: either a plain string (the instruction turn) or a
list of content blocks. -/
inductive MsgContent where
  | str (s : String)
  | blocks (bs : List Block)
deriving DecidableEq

/-- One conversation turn. -/
structure Message where
  role : String
  content : MsgContent
deriving DecidableEq

/-- One reply of the language-model planner collaborator. -/
structure PlannerResponse where
  content : List Block
  stop_reason : String
deriving DecidableEq

/-- workflow.py `WorkflowResult`. -/
structure WorkflowResult where
  sheet_url : String
  summary : String
  num_results : Nat
  session_id : Option String := none
deriving DecidableEq

/-- workflow.py `WorkflowInput`. -/
structure WorkflowInput where
  user_request : String
  user_id : String := "default"
deriving DecidableEq

/-- The in-memory `_sessions` dict: user id → stored conversation turns. -/
abbrev Sessions := List (String × List Message)

/-- `_sessions.get(user_id)`. -/
def Sessions.get (s : Sessions) (k : String) : Option (List Message) :=
  (s.find? (fun p => p.1 == k)).map (·.2)

/-- `_sessions.pop(user_id, None)`. -/
def Sessions.pop (s : Sessions) (k : String) : Sessions :=
  s.filter (fun p => p.1 != k)

/-- `_sessions[user_id] = v`. -/
def Sessions.set (s : Sessions) (k : String) (v : List Message) : Sessions :=
  (k, v) :: Sessions.pop s k

/-- `{search.min_price or 'any'}`: Python truthiness renders a missing or
zero numeric field as "any". -/
def orAnyInt (o : Option Int) : String :=
  match o with
  | some n => if n = 0 then "any" else toString n
  | none => "any"

/-- `{', '.join(search.property_type) if search.property_type else 'any'}`. -/
def propertyTypeStr (o : Option (List String)) : String :=
  match o with
  | some l => if l.isEmpty then "any" else String.intercalate ", " l
  | none => "any"

/-- workflow.py lines 301-309: the deterministic instruction turn. -/
def userPromptFor (search : SearchInput) : String :=
  "Find real estate listings and create a Google Sheet:\n" ++
  "- Location     : " ++ search.location ++ "\n" ++
  "- Listing type : " ++ search.listing_type ++ "\n" ++
  "- Price range  : $" ++ orAnyInt search.min_price ++ " – " ++ orAnyInt search.max_price ++ "\n" ++
  "- Beds         : " ++ orAnyInt search.min_beds ++ "+\n" ++
  "- Property type: " ++ propertyTypeStr search.property_type ++ "\n\n" ++
  "Call search_listings first, then create_sheet."

/-- `for block in response.content: if hasattr(block, "text"):
final_summary = block.text` — the last text block, or "" when none. -/
def lastTextOf (blocks : List Block) : String :=
  blocks.foldl (fun acc b => match b with | .text s => s | _ => acc) ""

/-- Accumulated output of executing the tool-use blocks of one planner turn. -/
structure ToolPass where
  results : List Block
  state : RunState
  lastSearchTime : ℚ
  clockIdx : Nat
  trace : List Event
deriving DecidableEq

/-- workflow.py lines 340-349: execute every tool_use block of a planner
turn in order, collecting one tool_result block per call.  `clock n` yields
the pair of `time.time()` samples for the n-th tool execution of the run. -/
def execToolBlocks (scrape : SearchInput → Except String DataFrame)
    (sheets : DataFrame → String → String → String → SheetResult)
    (clock : Nat → ℚ × ℚ) :
    List Block → RunState → ℚ → Nat → ToolPass
  | [], state, lt, idx => ⟨[], state, lt, idx, []⟩
  | b :: rest, state, lt, idx =>
    match b with
    | .toolUse id name input =>
      let t := clock idx
      let r := executeTool scrape sheets name input state lt t.1 t.2
      let tail := execToolBlocks scrape sheets clock rest r.state r.lastSearchTime (idx + 1)
      ⟨.toolResult id r.outcome :: tail.results, tail.state, tail.lastSearchTime,
        tail.clockIdx, r.trace ++ tail.trace⟩
    | _ => execToolBlocks scrape sheets clock rest state lt idx

/-- Terminal data of the planner loop. -/
structure LoopOut where
  final_summary : String
  messages : List Message
  state : RunState
  lastSearchTime : ℚ
  clockIdx : Nat
  plannerCalls : Nat
  trace : List Event
deriving DecidableEq

/-- workflow.py `max_iterations` (line 316). -/
def max_iterations : Nat := 8

/-- workflow.py lines 318-357: the for-loop of `run_agent_loop`,
parametrised by the remaining iteration fuel. -/
def runLoopAux (planner : List Message → PlannerResponse)
    (scrape : SearchInput → Except String DataFrame)
    (sheets : DataFrame → String → String → String → SheetResult)
    (clock : Nat → ℚ × ℚ) :
    Nat → List Message → RunState → ℚ → Nat → Nat → List Event → LoopOut
  | 0, msgs, state, lt, idx, calls, tr => ⟨"", msgs, state, lt, idx, calls, tr⟩
  | fuel + 1, msgs, state, lt, idx, calls, tr =>
    let resp := planner msgs
    let msgs := msgs ++ [⟨"assistant", .blocks resp.content⟩]
    if resp.stop_reason = "end_turn" then
      ⟨lastTextOf resp.content, msgs, state, lt, idx, calls + 1, tr⟩
    else if resp.stop_reason = "tool_use" then
      let p := execToolBlocks scrape sheets clock resp.content state lt idx
      runLoopAux planner scrape sheets clock fuel
        (msgs ++ [⟨"user", .blocks p.results⟩]) p.state p.lastSearchTime
        p.clockIdx (calls + 1) (tr ++ p.trace)
    else
      ⟨"", msgs, state, lt, idx, calls + 1, tr⟩

/-- workflow.py lines 362-374: the synthesized fallback summary, used when
the planner never produced a final text answer. -/
def fallbackSummary (state : RunState) (search : SearchInput) : String :=
  if state.sheet_url ≠ "" ∧ 0 < state.num_results then
    "Found " ++ toString state.num_results ++ " listings in " ++ search.location ++
      ". Google Sheet: " ++ state.sheet_url
  else if state.last_error ≠ "" then
    "Found " ++ toString state.num_results ++ " listings in " ++ search.location ++
      ", but sheet creation failed. " ++ state.last_error
  else
    "No listings found in " ++ search.location ++ " matching your criteria."

/-- Observable output of one workflow run: the returned result, the session
store after the run, the global timestamp, the final conversation, and the
instrumentation needed by the claims (planner-call count, effect trace). -/
structure RunOut where
  result : WorkflowResult
  sessions : Sessions
  lastSearchTime : ℚ
  messages : List Message
  state : RunState
  plannerCalls : Nat
  trace : List Event
deriving DecidableEq

/-- workflow.py `run_agent_loop`. -/
def run_agent_loop (planner : List Message → PlannerResponse)
    (scrape : SearchInput → Except String DataFrame)
    (sheets : DataFrame → String → String → String → SheetResult)
    (clock : Nat → ℚ × ℚ)
    (search : SearchInput) (user_id : String)
    (prior_messages : Option (List Message))
    (sessions : Sessions) (lastSearchTime : ℚ) : RunOut :=
  let state : RunState := { search := some search, user_id := user_id }
  let msgs0 := (prior_messages.getD []) ++ [⟨"user", .str (userPromptFor search)⟩]
  let lo := runLoopAux planner scrape sheets clock max_iterations msgs0 state lastSearchTime 0 0 []
  let sessions := Sessions.set sessions user_id lo.messages
  let summary := if lo.final_summary = "" then fallbackSummary lo.state search else lo.final_summary
  ⟨⟨lo.state.sheet_url, summary, lo.state.num_results, some user_id⟩,
    sessions, lo.lastSearchTime, lo.messages, lo.state, lo.plannerCalls, lo.trace⟩

/-- workflow.py `run_workflow`.  `parse` is the intent-parser collaborator
(`.error` = a parse exception propagating to the caller, which leaves the
session store and the timestamp untouched). -/
def run_workflow (parse : String → Except String SearchInput)
    (planner : List Message → PlannerResponse)
    (scrape : SearchInput → Except String DataFrame)
    (sheets : DataFrame → String → String → String → SheetResult)
    (clock : Nat → ℚ × ℚ)
    (input_data : WorkflowInput) (sessions : Sessions) (lastSearchTime : ℚ) :
    Except String RunOut :=
  match parse input_data.user_request with
  | .error e => .error e
  | .ok search =>
    if search.location = "" then
      .ok ⟨⟨"", "Could not determine a location. Please include a city, state, or zip code.", 0, none⟩,
           sessions, lastSearchTime, [], { search := some search, user_id := input_data.user_id }, 0, []⟩
    else
      let sessions := Sessions.pop sessions input_data.user_id
      .ok (run_agent_loop planner scrape sheets clock search input_data.user_id none sessions lastSearchTime)

/-- workflow.py `resume_workflow`.  `if prior_messages:` is Python
truthiness, so a stored empty list also falls back to the fresh path. -/
def resume_workflow (parse : String → Except String SearchInput)
    (planner : List Message → PlannerResponse)
    (scrape : SearchInput → Except String DataFrame)
    (sheets : DataFrame → String → String → String → SheetResult)
    (clock : Nat → ℚ × ℚ)
    (input_data : WorkflowInput) (sessions : Sessions) (lastSearchTime : ℚ) :
    Except String RunOut :=
  let prior := (Sessions.get sessions input_data.user_id).getD []
  if prior.isEmpty then
    run_workflow parse planner scrape sheets clock input_data sessions lastSearchTime
  else
    match parse input_data.user_request with
    | .error e => .error e
    | .ok search =>
      .ok (run_agent_loop planner scrape sheets clock search input_data.user_id (some prior) sessions lastSearchTime)

/-- uagent_bridge.py `SearchResponse`. -/
structure SearchResponse where
  sheet_url : String := ""
  summary : String := ""
  num_results : Nat := 0
  session_id : String := ""
  error : String := ""
deriving DecidableEq

/-- Does the character list start with `pat`? -/
def charsStartWith : List Char → List Char → Bool
  | [], _ => true
  | _ :: _, [] => false
  | p :: ps, c :: cs => (p == c) && charsStartWith ps cs

/-- Does the character list contain `pat` as contiguous sublist? -/
def charsContain (pat : List Char) : List Char → Bool
  | [] => charsStartWith pat []
  | c :: cs => charsStartWith pat (c :: cs) || charsContain pat cs

/-- Python `pat in s`: substring containment. -/
def strContains (s pat : String) : Bool := charsContain pat.data s.data

/-- `result.session_id or user_id`: Python truthiness. -/
def orDefault (o : Option String) (d : String) : String :=
  match o with
  | some s => if s = "" then d else s
  | none => d

/-- uagent_bridge.py `handle_search` reply construction (lines 216-239) as
a function of the workflow outcome; `.error` models an exception escaping
`run_workflow`. -/
def searchReply (user_id : String) (r : Except String WorkflowResult) : SearchResponse :=
  match r with
  | .error exc => { error := exc, session_id := user_id }
  | .ok result =>
    let error :=
      if result.sheet_url = "" ∧ strContains result.summary "Google authorization required" then
        result.summary
      else ""
    { sheet_url := result.sheet_url, summary := result.summary,
      num_results := result.num_results,
      session_id := orDefault result.session_id user_id, error := error }

/-- uagent_bridge.py `handle_followup` reply construction (lines 247-267):
the error field is the empty string on every normal completion. -/
def followupReply (user_id : String) (r : Except String WorkflowResult) : SearchResponse :=
  match r with
  | .error exc => { error := exc, session_id := user_id }
  | .ok result =>
    { sheet_url := result.sheet_url, summary := result.summary,
      num_results := result.num_results,
      session_id := orDefault result.session_id user_id, error := "" }

/-! Concrete oracle instances and inputs used to evaluate the embedded
workflow on closed runs. -/

/-- Intent-parser oracle producing an empty location. -/
def cxParseNoLoc : String → Except String SearchInput := fun _ => .ok { location := "" }

/-- Intent-parser oracle producing an Austin, TX search. -/
def cxParseAustin : String → Except String SearchInput := fun _ => .ok { location := "Austin, TX" }

/-- Planner oracle that immediately ends the turn with a short text answer. -/
def cxPlannerEnd : List Message → PlannerResponse :=
  fun _ => ⟨[Block.text "done"], "end_turn"⟩

/-- Planner oracle that ends the turn with Google-authorization
instructions as its text answer. -/
def cxPlannerAuth : List Message → PlannerResponse :=
  fun _ => ⟨[Block.text "Google authorization required for sheet creation. Complete the device flow and retry."], "end_turn"⟩

/-- Planner oracle that requests one search tool call on its first turn
and then ends the turn with no text. -/
def cxPlannerSearchOnce : List Message → PlannerResponse :=
  fun msgs =>
    if msgs.length ≤ 1 then
      ⟨[Block.toolUse "t1" "search_listings" { location := some "Austin, TX" }], "tool_use"⟩
    else ⟨[], "end_turn"⟩

/-- Scraping oracle that always raises. -/
def cxScrape : SearchInput → Except String DataFrame := fun _ => .error "boom"

/-- Sheets oracle that always raises a generic error. -/
def cxSheets : DataFrame → String → String → String → SheetResult :=
  fun _ _ _ _ => .failure "sheets down"

/-- Clock oracle. -/
def cxClock : Nat → ℚ × ℚ := fun _ => (0, 0)

/-- A stored prior conversation for user "u". -/
def cxPrior : List Message := [⟨"user", .str "find homes in Austin"⟩]

/-- A session store holding a prior conversation for user "u". -/
def cxSessions : Sessions := [("u", cxPrior)]

/-- Criteria carrying price and bed bounds. -/
def cxCriteria : SearchInput :=
  { location := "Austin, TX", min_price := some 100000,
    max_price := some 600000, min_beds := some 3 }

/-- A run state whose current criteria carry price and bed bounds. -/
def cxState : RunState := { search := some cxCriteria, user_id := "u" }

/-- A tool input supplying only a new location. -/
def cxOverride : ToolInput := { location := some "Dallas, TX" }

/-- Planner oracle that requests a search tool call on every turn. -/
def cxPlannerLoopForever : List Message → PlannerResponse :=
  fun _ => ⟨[Block.toolUse "t" "search_listings" { location := some "Austin, TX" }], "tool_use"⟩

/-- A raw scraped frame with three priced rows, out of order. -/
def cxFrame : DataFrame :=
  ⟨["list_price", "beds"],
   [{ list_price := some 300 }, { list_price := some 100 }, { list_price := some 200 }]⟩

/-- Scraping oracle returning `cxFrame`. -/
def cxScrapeOk : SearchInput → Except String DataFrame := fun _ => .ok cxFrame

/-- The loop run performed by `run_agent_loop` for the given inputs
(workflow.py lines 299-316: the initial run state, the seeded
conversation, and the iteration cap). -/
def loopOf (planner : List Message → PlannerResponse)
    (scrape : SearchInput → Except String DataFrame)
    (sheets : DataFrame → String → String → String → SheetResult)
    (clock : Nat → ℚ × ℚ)
    (search : SearchInput) (user_id : String)
    (prior_messages : Option (List Message)) (lastSearchTime : ℚ) : LoopOut :=
  runLoopAux planner scrape sheets clock max_iterations
    ((prior_messages.getD []) ++ [⟨"user", .str (userPromptFor search)⟩])
    { search := some search, user_id := user_id } lastSearchTime 0 0 []

/-- A workflow result carrying authorization instructions and no artifact. -/
def cxAuthResult : WorkflowResult :=
  ⟨"", "Google authorization required for sheet creation.", 2, some "u"⟩

/-- Planner-call count of a workflow outcome (0 when an exception escaped). -/
def plannerCallsOf (r : Except String RunOut) : Nat :=
  match r with
  | .ok o => o.plannerCalls
  | .error _ => 0

/-- Session store left behind by a workflow outcome (empty when an
exception escaped before any store access). -/
def sessionsOf (r : Except String RunOut) : Sessions :=
  match r with
  | .ok o => o.sessions
  | .error _ => []

/-- Returned result of a workflow outcome. -/
def resultOf (r : Except String RunOut) : WorkflowResult :=
  match r with
  | .ok o => o.result
  | .error _ => ⟨"", "", 0, none⟩

/-! Shared lemmas about the tool executor. -/

/-- A search tool call that passes the rate gate stamps the global
timestamp (second time sample) before invoking the fetch collaborator. -/
theorem executeTool_search_pass
    (scrape : SearchInput → Except String DataFrame)
    (sheets : DataFrame → String → String → String → SheetResult)
    (input : ToolInput) (st : RunState) (L t t' : ℚ)
    (h : ¬ (0 < L ∧ t - L < SEARCH_COOLDOWN_SECONDS)) :
    (executeTool scrape sheets "search_listings" input st L t t').trace =
      [Event.stampTime t', Event.callFetch (mergedSearch input st)] ∧
    (executeTool scrape sheets "search_listings" input st L t t').lastSearchTime = t' := by
  unfold executeTool
  simp only [if_pos rfl, if_neg h]
  cases hsc : scrape (mergedSearch input st) with
  | error e => simp
  | ok properties =>
    by_cases hemp : (fetch_listings (mergedSearch input st) properties).rows.isEmpty <;>
      simp [hemp]

/-- A search tool call inside the cooldown window returns rate_limited
with the rounded remaining wait and changes nothing. -/
theorem executeTool_search_limited
    (scrape : SearchInput → Except String DataFrame)
    (sheets : DataFrame → String → String → String → SheetResult)
    (input : ToolInput) (st : RunState) (L t t' : ℚ)
    (h : 0 < L ∧ t - L < SEARCH_COOLDOWN_SECONDS) :
    executeTool scrape sheets "search_listings" input st L t t' =
      ⟨.rateLimited (pyRound1 (SEARCH_COOLDOWN_SECONDS - (t - L))), st, L, []⟩ := by
  unfold executeTool
  simp [if_pos h]

/-- C1: a search invocation starting less than the 8-second cooldown after
the global last-search timestamp was last set returns a rate_limited
outcome carrying the rounded remaining wait, performs no fetch call, and
leaves the timestamp and the run state unchanged; spaced at least the
cooldown apart it proceeds, and a proceeding call stamps the global
timestamp before the external fetch call. -/
theorem c1_search_rate_gate
    (scrape : SearchInput → Except String DataFrame)
    (sheets : DataFrame → String → String → String → SheetResult)
    (input1 input2 : ToolInput) (st : RunState) (L t1 t1' t2 t2' : ℚ)
    (r1 r2 : ExecOut)
    (hr1 : r1 = executeTool scrape sheets "search_listings" input1 st L t1 t1')
    (hr2 : r2 = executeTool scrape sheets "search_listings" input2 r1.state r1.lastSearchTime t2 t2')
    (hfirst : ¬ (0 < L ∧ t1 - L < SEARCH_COOLDOWN_SECONDS))
    (hpos : 0 < t1') :
    (r1.trace = [Event.stampTime t1', Event.callFetch (mergedSearch input1 st)] ∧
      r1.lastSearchTime = t1') ∧
    (t2 - t1' < SEARCH_COOLDOWN_SECONDS →
      r2.outcome = ToolOutcome.rateLimited (pyRound1 (SEARCH_COOLDOWN_SECONDS - (t2 - t1'))) ∧
      r2.outcome.status = "rate_limited" ∧
      r2.trace = [] ∧ r2.lastSearchTime = r1.lastSearchTime ∧ r2.state = r1.state) ∧
    (SEARCH_COOLDOWN_SECONDS ≤ t2 - t1' →
      r2.trace = [Event.stampTime t2', Event.callFetch (mergedSearch input2 r1.state)] ∧
      r2.lastSearchTime = t2') := by
  obtain ⟨h1t, h1L⟩ := by
    have := executeTool_search_pass scrape sheets input1 st L t1 t1' hfirst
    rw [← hr1] at this; exact this
  rw [h1L] at hr2
  refine ⟨⟨h1t, h1L⟩, ?_, ?_⟩
  · intro hlt
    rw [hr2, executeTool_search_limited scrape sheets input2 r1.state t1' t2 t2' ⟨hpos, hlt⟩]
    exact ⟨rfl, rfl, rfl, h1L.symm, rfl⟩
  · intro hge
    have hng : ¬ (0 < t1' ∧ t2 - t1' < SEARCH_COOLDOWN_SECONDS) := by
      push_neg; intro _; linarith
    have h2 := executeTool_search_pass scrape sheets input2 r1.state t1' t2 t2' hng
    rw [← hr2] at h2
    exact h2

/-- C1 witness: a first search at time 1 (previous timestamp 0, so the
gate is open) followed by a second search 4 seconds later, which is
rate-limited. -/
theorem c1_search_rate_gate_witness :
    (¬ (0 < (0:ℚ) ∧ 0 - 0 < SEARCH_COOLDOWN_SECONDS)) ∧ (0:ℚ) < 1 ∧
    ((executeTool cxScrape cxSheets "search_listings" {} {} 0 0 1).trace =
      [Event.stampTime 1, Event.callFetch (mergedSearch {} {})]) ∧
    ((executeTool cxScrape cxSheets "search_listings" {}
        (executeTool cxScrape cxSheets "search_listings" {} {} 0 0 1).state
        (executeTool cxScrape cxSheets "search_listings" {} {} 0 0 1).lastSearchTime 5 6).outcome =
      ToolOutcome.rateLimited (pyRound1 (SEARCH_COOLDOWN_SECONDS - (5 - 1)))) := by
  refine ⟨by norm_num [SEARCH_COOLDOWN_SECONDS], by norm_num, ?_⟩
  have h := c1_search_rate_gate cxScrape cxSheets {} {} {} 0 0 1 5 6 _ _ rfl rfl
    (by norm_num [SEARCH_COOLDOWN_SECONDS]) (by norm_num)
  exact ⟨h.1.1, (h.2.1 (by norm_num [SEARCH_COOLDOWN_SECONDS])).1⟩

/-- C2: a create_sheet call on a run state whose stored result set is
absent or empty returns a status "error" outcome, invokes no collaborator,
and leaves the run state (in particular sheet_url) and timestamp
unchanged. -/
theorem c2_create_sheet_requires_results
    (scrape : SearchInput → Except String DataFrame)
    (sheets : DataFrame → String → String → String → SheetResult)
    (input : ToolInput) (st : RunState) (L t t' : ℚ)
    (h : st.df = none ∨ ∃ d, st.df = some d ∧ d.rows = []) :
    executeTool scrape sheets "create_sheet" input st L t t' =
      ⟨.sheetError "No listings data — run search_listings first.", st, L, []⟩ ∧
    (executeTool scrape sheets "create_sheet" input st L t t').outcome.status = "error" ∧
    (executeTool scrape sheets "create_sheet" input st L t t').state.sheet_url = st.sheet_url := by
  have key : executeTool scrape sheets "create_sheet" input st L t t' =
      ⟨.sheetError "No listings data — run search_listings first.", st, L, []⟩ := by
    unfold executeTool
    rcases h with hn | ⟨d, hd, hrows⟩
    · simp [hn]
    · simp [hd, hrows]
  exact ⟨key, by rw [key]; rfl, by rw [key]⟩

/-- C2 witness: a fresh run state (no stored result set). -/
theorem c2_create_sheet_requires_results_witness :
    (({} : RunState).df = none ∨ ∃ d, ({} : RunState).df = some d ∧ d.rows = []) ∧
    executeTool cxScrape cxSheets "create_sheet" {} {} 0 0 1 =
      ⟨.sheetError "No listings data — run search_listings first.", {}, 0, []⟩ :=
  ⟨Or.inl rfl,
    (c2_create_sheet_requires_results cxScrape cxSheets {} {} 0 0 1 (Or.inl rfl)).1⟩

/-- The loop only appends messages: its final conversation extends the
seed, the appended suffix holds exactly one assistant turn per planner
call, and every appended turn is an assistant or a (tool-result) user
turn. -/
theorem runLoopAux_transcript (planner : List Message → PlannerResponse)
    (scrape : SearchInput → Except String DataFrame)
    (sheets : DataFrame → String → String → String → SheetResult)
    (clock : Nat → ℚ × ℚ) :
    ∀ (fuel : Nat) (msgs : List Message) (st : RunState) (lt : ℚ) (idx calls : Nat) (tr : List Event),
    ∃ suffix,
      (runLoopAux planner scrape sheets clock fuel msgs st lt idx calls tr).messages = msgs ++ suffix ∧
      (suffix.filter (fun m => m.role == "assistant")).length + calls =
        (runLoopAux planner scrape sheets clock fuel msgs st lt idx calls tr).plannerCalls ∧
      ∀ m ∈ suffix, m.role = "assistant" ∨ m.role = "user" := by
  intro fuel
  induction fuel with
  | zero =>
    intro msgs st lt idx calls tr
    exact ⟨[], by simp [runLoopAux], by simp [runLoopAux], by simp⟩
  | succ fuel ih =>
    intro msgs st lt idx calls tr
    by_cases h1 : (planner msgs).stop_reason = "end_turn"
    · refine ⟨[⟨"assistant", .blocks (planner msgs).content⟩], ?_, ?_, ?_⟩
      · simp [runLoopAux, h1]
      · simp only [runLoopAux, if_pos h1]
        simp [List.filter]
        omega
      · simp
    · by_cases h2 : (planner msgs).stop_reason = "tool_use"
      · obtain ⟨suffix, hmsg, hcount, hrole⟩ :=
          ih (msgs ++ [⟨"assistant", .blocks (planner msgs).content⟩] ++
              [⟨"user", .blocks (execToolBlocks scrape sheets clock (planner msgs).content st lt idx).results⟩])
            (execToolBlocks scrape sheets clock (planner msgs).content st lt idx).state
            (execToolBlocks scrape sheets clock (planner msgs).content st lt idx).lastSearchTime
            (execToolBlocks scrape sheets clock (planner msgs).content st lt idx).clockIdx
            (calls + 1)
            (tr ++ (execToolBlocks scrape sheets clock (planner msgs).content st lt idx).trace)
        refine ⟨⟨"assistant", .blocks (planner msgs).content⟩ ::
            ⟨"user", .blocks (execToolBlocks scrape sheets clock (planner msgs).content st lt idx).results⟩ ::
            suffix, ?_, ?_, ?_⟩
        · simp only [runLoopAux, if_neg h1, if_pos h2]
          rw [hmsg]
          simp
        · simp only [runLoopAux, if_neg h1, if_pos h2]
          rw [← hcount]
          simp [List.filter]
          omega
        · intro m hm
          rcases List.mem_cons.mp hm with he | hm
          · left; rw [he]
          · rcases List.mem_cons.mp hm with he | hm
            · right; rw [he]
            · exact hrole m hm
      · refine ⟨[⟨"assistant", .blocks (planner msgs).content⟩], ?_, ?_, ?_⟩
        · simp [runLoopAux, h1, h2]
        · simp only [runLoopAux, if_neg h1, if_neg h2]
          simp [List.filter]
          omega
        · simp

/-- C3 counterexample: a follow-up request for a user with a stored
session whose parsed criteria has an empty location still invokes the
planner loop (once here) and does not return the clarification summary —
the empty-location check exists only on the fresh-run path. -/
theorem c3_counterexample :
    cxParseNoLoc "again" = .ok { location := "" } ∧
    plannerCallsOf (resume_workflow cxParseNoLoc cxPlannerEnd cxScrape cxSheets cxClock
      ⟨"again", "u"⟩ cxSessions 0) = 1 ∧
    (resultOf (resume_workflow cxParseNoLoc cxPlannerEnd cxScrape cxSheets cxClock
      ⟨"again", "u"⟩ cxSessions 0)).summary ≠
      "Could not determine a location. Please include a city, state, or zip code." := by
  refine ⟨rfl, rfl, by decide⟩

/-- C3 (amended): for a fresh run — and hence for a follow-up without a
stored session, which falls back to the fresh path — an empty parsed
location yields zero results, an empty artifact URL and the fixed
clarification summary, with no planner call, no collaborator call and the
session store untouched. -/
theorem c3_no_location_clarification
    (parse : String → Except String SearchInput)
    (planner : List Message → PlannerResponse)
    (scrape : SearchInput → Except String DataFrame)
    (sheets : DataFrame → String → String → String → SheetResult)
    (clock : Nat → ℚ × ℚ)
    (inp : WorkflowInput) (sessions : Sessions) (L : ℚ) (search : SearchInput)
    (hp : parse inp.user_request = .ok search) (hloc : search.location = "") :
    run_workflow parse planner scrape sheets clock inp sessions L =
      .ok ⟨⟨"", "Could not determine a location. Please include a city, state, or zip code.", 0, none⟩,
           sessions, L, [], { search := some search, user_id := inp.user_id }, 0, []⟩ ∧
    ((Sessions.get sessions inp.user_id).getD [] = [] →
      resume_workflow parse planner scrape sheets clock inp sessions L =
        run_workflow parse planner scrape sheets clock inp sessions L) := by
  constructor
  · unfold run_workflow
    rw [hp]
    simp [hloc]
  · intro hempty
    unfold resume_workflow
    rw [hempty]
    simp

/-- C3 witness: a fresh run whose parse yields an empty location. -/
theorem c3_no_location_clarification_witness :
    cxParseNoLoc "anything" = .ok { location := "" } ∧
    ({ location := "" } : SearchInput).location = "" ∧
    run_workflow cxParseNoLoc cxPlannerEnd cxScrape cxSheets cxClock ⟨"anything", "w"⟩ [] 0 =
      .ok ⟨⟨"", "Could not determine a location. Please include a city, state, or zip code.", 0, none⟩,
           [], 0, [], { search := some { location := "" }, user_id := "w" }, 0, []⟩ :=
  ⟨rfl, rfl,
    (c3_no_location_clarification cxParseNoLoc cxPlannerEnd cxScrape cxSheets cxClock
      ⟨"anything", "w"⟩ [] 0 { location := "" } rfl rfl).1⟩

/-- C4 counterexample: a fresh run that ends in the empty-location outcome
leaves the existing session for the user fully intact — the session is not
cleared on that path (nor on parse failure, where the exception propagates
before the store is touched). -/
theorem c4_counterexample :
    Sessions.get cxSessions "u" = some cxPrior ∧
    sessionsOf (run_workflow cxParseNoLoc cxPlannerEnd cxScrape cxSheets cxClock
      ⟨"q", "u"⟩ cxSessions 0) = cxSessions ∧
    Sessions.get (sessionsOf (run_workflow cxParseNoLoc cxPlannerEnd cxScrape cxSheets cxClock
      ⟨"q", "u"⟩ cxSessions 0)) "u" = some cxPrior :=
  ⟨rfl, rfl, rfl⟩

/-- C4 (amended): a fresh run clears the user's stored session exactly on
the path that reaches the agent loop (successful parse, non-empty
location); on the empty-location outcome the store is unchanged and on
parse failure the exception propagates untouched; a follow-up with a
non-empty stored session seeds the loop with the session's full prior
turns, which remain a prefix of the conversation it stores. -/
theorem c4_session_lifecycle
    (parse : String → Except String SearchInput)
    (planner : List Message → PlannerResponse)
    (scrape : SearchInput → Except String DataFrame)
    (sheets : DataFrame → String → String → String → SheetResult)
    (clock : Nat → ℚ × ℚ)
    (inp : WorkflowInput) (sessions : Sessions) (L : ℚ) :
    (∀ search, parse inp.user_request = .ok search → search.location ≠ "" →
      ∃ ro, run_workflow parse planner scrape sheets clock inp sessions L = .ok ro ∧
        ro.sessions = Sessions.set (Sessions.pop sessions inp.user_id) inp.user_id ro.messages ∧
        ∃ suffix, ro.messages = ⟨"user", MsgContent.str (userPromptFor search)⟩ :: suffix) ∧
    (∀ search, parse inp.user_request = .ok search → search.location = "" →
      sessionsOf (run_workflow parse planner scrape sheets clock inp sessions L) = sessions) ∧
    (∀ e, parse inp.user_request = .error e →
      run_workflow parse planner scrape sheets clock inp sessions L = .error e) ∧
    (∀ prior search, Sessions.get sessions inp.user_id = some prior → prior ≠ [] →
      parse inp.user_request = .ok search →
      ∃ ro, resume_workflow parse planner scrape sheets clock inp sessions L = .ok ro ∧
        ro.sessions = Sessions.set sessions inp.user_id ro.messages ∧
        ∃ suffix, ro.messages = prior ++ ⟨"user", MsgContent.str (userPromptFor search)⟩ :: suffix) := by
  refine ⟨?_, ?_, ?_, ?_⟩
  · intro search hp hloc
    have hres : run_workflow parse planner scrape sheets clock inp sessions L =
        .ok (run_agent_loop planner scrape sheets clock search inp.user_id none
          (Sessions.pop sessions inp.user_id) L) := by
      unfold run_workflow
      rw [hp]
      simp [hloc]
    refine ⟨_, hres, rfl, ?_⟩
    obtain ⟨suffix, hmsg, -, -⟩ := runLoopAux_transcript planner scrape sheets clock
      max_iterations ((none : Option (List Message)).getD [] ++ [⟨"user", MsgContent.str (userPromptFor search)⟩])
      { search := some search, user_id := inp.user_id } L 0 0 []
    refine ⟨suffix, ?_⟩
    show (runLoopAux planner scrape sheets clock max_iterations
      ((none : Option (List Message)).getD [] ++ [⟨"user", MsgContent.str (userPromptFor search)⟩])
      { search := some search, user_id := inp.user_id } L 0 0 []).messages = _
    rw [hmsg]
    simp
  · intro search hp hloc
    unfold run_workflow
    rw [hp]
    simp [hloc, sessionsOf]
  · intro e hp
    unfold run_workflow
    rw [hp]
  · intro prior search hget hne hp
    have hres : resume_workflow parse planner scrape sheets clock inp sessions L =
        .ok (run_agent_loop planner scrape sheets clock search inp.user_id (some prior) sessions L) := by
      unfold resume_workflow
      rw [hget]
      simp only [Option.getD_some]
      rw [if_neg (show ¬ prior.isEmpty = true by simpa using hne), hp]
    refine ⟨_, hres, rfl, ?_⟩
    obtain ⟨suffix, hmsg, -, -⟩ := runLoopAux_transcript planner scrape sheets clock
      max_iterations ((some prior).getD [] ++ [⟨"user", MsgContent.str (userPromptFor search)⟩])
      { search := some search, user_id := inp.user_id } L 0 0 []
    refine ⟨suffix, ?_⟩
    show (runLoopAux planner scrape sheets clock max_iterations
      ((some prior).getD [] ++ [⟨"user", MsgContent.str (userPromptFor search)⟩])
      { search := some search, user_id := inp.user_id } L 0 0 []).messages = _
    rw [hmsg]
    simp

/-- C4 witness: a fresh run and a follow-up for user "u", whose store
holds a one-turn prior session, with a successful Austin parse. -/
theorem c4_session_lifecycle_witness :
    cxParseAustin "q" = .ok { location := "Austin, TX" } ∧
    ({ location := "Austin, TX" } : SearchInput).location ≠ "" ∧
    Sessions.get cxSessions "u" = some cxPrior ∧ cxPrior ≠ [] ∧
    (∃ ro, run_workflow cxParseAustin cxPlannerEnd cxScrape cxSheets cxClock
        ⟨"q", "u"⟩ cxSessions 0 = .ok ro ∧
      ro.sessions = Sessions.set (Sessions.pop cxSessions "u") "u" ro.messages ∧
      ∃ suffix, ro.messages =
        ⟨"user", MsgContent.str (userPromptFor { location := "Austin, TX" })⟩ :: suffix) ∧
    (∃ ro, resume_workflow cxParseAustin cxPlannerEnd cxScrape cxSheets cxClock
        ⟨"q", "u"⟩ cxSessions 0 = .ok ro ∧
      ro.sessions = Sessions.set cxSessions "u" ro.messages ∧
      ∃ suffix, ro.messages =
        cxPrior ++ ⟨"user", MsgContent.str (userPromptFor { location := "Austin, TX" })⟩ :: suffix) := by
  have h := c4_session_lifecycle cxParseAustin cxPlannerEnd cxScrape cxSheets cxClock
    ⟨"q", "u"⟩ cxSessions 0
  exact ⟨rfl, by decide, rfl, by decide, h.1 _ rfl (by decide),
    h.2.2.2 cxPrior _ rfl (by decide) rfl⟩

/-- C5 counterexample: two reachable replies falsify the claim.  A
follow-up reply in the authorization-required case (empty artifact URL,
summary carrying the authorization instructions) has an empty error field,
so the instructions do not appear in both fields; and a SearchRequest
reply for a run that failed to produce an artifact (search collaborator
raised, fallback summary records the error) also has an empty error field,
so error is not non-empty exactly when no usable artifact was produced. -/
theorem c5_counterexample :
    (followupReply "u" ((resume_workflow cxParseAustin cxPlannerAuth cxScrape cxSheets cxClock
        ⟨"export again", "u"⟩ cxSessions 0).map (·.result))).error = "" ∧
    (followupReply "u" ((resume_workflow cxParseAustin cxPlannerAuth cxScrape cxSheets cxClock
        ⟨"export again", "u"⟩ cxSessions 0).map (·.result))).sheet_url = "" ∧
    strContains (followupReply "u" ((resume_workflow cxParseAustin cxPlannerAuth cxScrape cxSheets cxClock
        ⟨"export again", "u"⟩ cxSessions 0).map (·.result))).summary "Google authorization required" = true ∧
    (searchReply "u" ((run_workflow cxParseAustin cxPlannerSearchOnce cxScrape cxSheets cxClock
        ⟨"find", "u"⟩ [] 0).map (·.result))).error = "" ∧
    (searchReply "u" ((run_workflow cxParseAustin cxPlannerSearchOnce cxScrape cxSheets cxClock
        ⟨"find", "u"⟩ [] 0).map (·.result))).sheet_url = "" ∧
    (searchReply "u" ((run_workflow cxParseAustin cxPlannerSearchOnce cxScrape cxSheets cxClock
        ⟨"find", "u"⟩ [] 0).map (·.result))).summary =
      "Found 0 listings in Austin, TX, but sheet creation failed. boom" := by
  refine ⟨by decide, by decide, by decide, by decide, by decide, by decide⟩

/-- C5 (amended): in a normal SearchRequest reply the error field is
non-empty exactly when the artifact URL is empty and the summary contains
the Google-authorization marker, in which case the error equals the
summary (so the instructions appear in both fields); a normal
FollowUpRequest reply always carries an empty error; an exception escaping
either workflow is returned as the error text. -/
theorem c5_error_field (user_id : String) (res : WorkflowResult) (e : String) :
    ((searchReply user_id (.ok res)).error ≠ "" ↔
      (res.sheet_url = "" ∧ strContains res.summary "Google authorization required" = true)) ∧
    ((searchReply user_id (.ok res)).error ≠ "" →
      (searchReply user_id (.ok res)).error = res.summary) ∧
    (searchReply user_id (.ok res)).summary = res.summary ∧
    (followupReply user_id (.ok res)).error = "" ∧
    (searchReply user_id (.error e)).error = e ∧
    (followupReply user_id (.error e)).error = e := by
  refine ⟨?_, ?_, rfl, rfl, rfl, rfl⟩
  · unfold searchReply
    by_cases hc : res.sheet_url = "" ∧ strContains res.summary "Google authorization required" = true
    · simp only [if_pos hc]
      constructor
      · intro _; exact hc
      · intro _ h0
        rw [h0] at hc
        exact absurd hc.2 (by decide)
    · simp [hc]
  · unfold searchReply
    by_cases hc : res.sheet_url = "" ∧ strContains res.summary "Google authorization required" = true
    · simp [hc]
    · simp [hc]

/-- C5 witness: a result carrying authorization instructions and no
artifact URL populates both fields of the SearchRequest reply but leaves
the FollowUpRequest reply error empty. -/
theorem c5_error_field_witness :
    (searchReply "u" (.ok cxAuthResult)).error ≠ "" ∧
    (searchReply "u" (.ok cxAuthResult)).error = cxAuthResult.summary ∧
    (followupReply "u" (.ok cxAuthResult)).error = "" := by
  have h := c5_error_field "u" cxAuthResult "exc"
  exact ⟨h.1.mpr ⟨rfl, by decide⟩, h.2.1 (h.1.mpr ⟨rfl, by decide⟩), h.2.2.2.1⟩

/-- `run_agent_loop` projected through `loopOf`. -/
theorem run_agent_loop_eq (planner : List Message → PlannerResponse)
    (scrape : SearchInput → Except String DataFrame)
    (sheets : DataFrame → String → String → String → SheetResult)
    (clock : Nat → ℚ × ℚ)
    (search : SearchInput) (user_id : String)
    (prior : Option (List Message)) (sessions : Sessions) (L : ℚ) :
    run_agent_loop planner scrape sheets clock search user_id prior sessions L =
      ⟨⟨(loopOf planner scrape sheets clock search user_id prior L).state.sheet_url,
        (if (loopOf planner scrape sheets clock search user_id prior L).final_summary = "" then
          fallbackSummary (loopOf planner scrape sheets clock search user_id prior L).state search
        else (loopOf planner scrape sheets clock search user_id prior L).final_summary),
        (loopOf planner scrape sheets clock search user_id prior L).state.num_results, some user_id⟩,
       Sessions.set sessions user_id (loopOf planner scrape sheets clock search user_id prior L).messages,
       (loopOf planner scrape sheets clock search user_id prior L).lastSearchTime,
       (loopOf planner scrape sheets clock search user_id prior L).messages,
       (loopOf planner scrape sheets clock search user_id prior L).state,
       (loopOf planner scrape sheets clock search user_id prior L).plannerCalls,
       (loopOf planner scrape sheets clock search user_id prior L).trace⟩ := rfl

/-- The loop invokes the planner at most once per unit of fuel. -/
theorem runLoopAux_calls_le (planner : List Message → PlannerResponse)
    (scrape : SearchInput → Except String DataFrame)
    (sheets : DataFrame → String → String → String → SheetResult)
    (clock : Nat → ℚ × ℚ) :
    ∀ (fuel : Nat) (msgs : List Message) (st : RunState) (lt : ℚ) (idx calls : Nat) (tr : List Event),
      (runLoopAux planner scrape sheets clock fuel msgs st lt idx calls tr).plannerCalls ≤ calls + fuel := by
  intro fuel
  induction fuel with
  | zero => intro msgs st lt idx calls tr; simp [runLoopAux]
  | succ fuel ih =>
    intro msgs st lt idx calls tr
    by_cases h1 : (planner msgs).stop_reason = "end_turn"
    · simp [runLoopAux, h1]
    · by_cases h2 : (planner msgs).stop_reason = "tool_use"
      · simp only [runLoopAux, if_neg h1, if_pos h2]
        calc _ ≤ (calls + 1) + fuel := ih _ _ _ _ _ _
        _ = calls + (fuel + 1) := by omega
      · simp [runLoopAux, h1, h2]

/-- Under a planner that always requests tools, the loop burns all its
fuel and never obtains a final text answer. -/
theorem runLoopAux_all_tool_use (planner : List Message → PlannerResponse)
    (scrape : SearchInput → Except String DataFrame)
    (sheets : DataFrame → String → String → String → SheetResult)
    (clock : Nat → ℚ × ℚ)
    (h : ∀ msgs, (planner msgs).stop_reason = "tool_use") :
    ∀ (fuel : Nat) (msgs : List Message) (st : RunState) (lt : ℚ) (idx calls : Nat) (tr : List Event),
      (runLoopAux planner scrape sheets clock fuel msgs st lt idx calls tr).plannerCalls = calls + fuel ∧
      (runLoopAux planner scrape sheets clock fuel msgs st lt idx calls tr).final_summary = "" := by
  intro fuel
  induction fuel with
  | zero => intro msgs st lt idx calls tr; simp [runLoopAux]
  | succ fuel ih =>
    intro msgs st lt idx calls tr
    have h1 : ¬ (planner msgs).stop_reason = "end_turn" := by rw [h msgs]; decide
    simp only [runLoopAux, if_neg h1, if_pos (h msgs)]
    obtain ⟨hc, hf⟩ := ih _ _ _ _ _ _
    exact ⟨by rw [hc]; omega, hf⟩

/-- C6: every agent-loop run invokes the planner at most 8 times, and a
planner that never stops (always requests tools) exhausts the cap after
exactly 8 calls, with the run falling through to the synthesized fallback
summary. -/
theorem c6_loop_bounded (planner : List Message → PlannerResponse)
    (scrape : SearchInput → Except String DataFrame)
    (sheets : DataFrame → String → String → String → SheetResult)
    (clock : Nat → ℚ × ℚ)
    (search : SearchInput) (user_id : String)
    (prior : Option (List Message)) (sessions : Sessions) (L : ℚ) :
    (run_agent_loop planner scrape sheets clock search user_id prior sessions L).plannerCalls ≤
      max_iterations ∧
    ((∀ msgs, (planner msgs).stop_reason = "tool_use") →
      (run_agent_loop planner scrape sheets clock search user_id prior sessions L).plannerCalls =
        max_iterations ∧
      (run_agent_loop planner scrape sheets clock search user_id prior sessions L).result.summary =
        fallbackSummary
          (run_agent_loop planner scrape sheets clock search user_id prior sessions L).state search) := by
  rw [run_agent_loop_eq]
  constructor
  · simpa using runLoopAux_calls_le planner scrape sheets clock max_iterations _ _ _ _ _ _
  · intro htool
    obtain ⟨hc, hf⟩ := runLoopAux_all_tool_use planner scrape sheets clock htool max_iterations
      ((prior.getD []) ++ [⟨"user", .str (userPromptFor search)⟩])
      { search := some search, user_id := user_id } L 0 0 []
    constructor
    · simpa [loopOf] using hc
    · have : (loopOf planner scrape sheets clock search user_id prior L).final_summary = "" := hf
      simp [this]

/-- C6 witness: a planner that requests a search on every turn. -/
theorem c6_loop_bounded_witness :
    (∀ msgs, (cxPlannerLoopForever msgs).stop_reason = "tool_use") ∧
    (run_agent_loop cxPlannerLoopForever cxScrape cxSheets cxClock { location := "Austin, TX" }
      "u" none [] 0).plannerCalls = max_iterations ∧
    (run_agent_loop cxPlannerLoopForever cxScrape cxSheets cxClock { location := "Austin, TX" }
      "u" none [] 0).result.summary =
      fallbackSummary (run_agent_loop cxPlannerLoopForever cxScrape cxSheets cxClock
        { location := "Austin, TX" } "u" none [] 0).state { location := "Austin, TX" } := by
  have h := (c6_loop_bounded cxPlannerLoopForever cxScrape cxSheets cxClock { location := "Austin, TX" }
    "u" none [] 0).2 (fun _ => rfl)
  exact ⟨fun _ => rfl, h.1, h.2⟩

/-- A string starting with a non-empty string is non-empty. -/
theorem str_append_ne_empty (s t : String) (h : s ≠ "") : s ++ t ≠ "" := by
  intro hc
  apply h
  have hd : s.data ++ t.data = [] := by
    have := congrArg String.data hc
    simpa [String.data_append] using this
  have hs : s.data = [] := (List.append_eq_nil.mp hd).1
  exact String.ext (by simpa using hs)

/-- Every branch of the synthesized fallback summary is non-empty. -/
theorem fallbackSummary_ne_empty (st : RunState) (search : SearchInput) :
    fallbackSummary st search ≠ "" := by
  unfold fallbackSummary
  split_ifs with h1 h2
  · apply str_append_ne_empty
    apply str_append_ne_empty
    apply str_append_ne_empty
    apply str_append_ne_empty
    apply str_append_ne_empty
    decide
  · apply str_append_ne_empty
    apply str_append_ne_empty
    apply str_append_ne_empty
    apply str_append_ne_empty
    apply str_append_ne_empty
    decide
  · apply str_append_ne_empty
    apply str_append_ne_empty
    decide

/-- C7: every completed agent-loop run has a non-empty summary; when the
planner never produced a final text answer the summary is the synthesized
one — the found-count-plus-URL message if an artifact exists and the count
is positive, else the count-plus-last-error message when an error is
recorded, else the generic no-listings message — and otherwise it is the
planner's final text. -/
theorem c7_summary_nonempty (planner : List Message → PlannerResponse)
    (scrape : SearchInput → Except String DataFrame)
    (sheets : DataFrame → String → String → String → SheetResult)
    (clock : Nat → ℚ × ℚ)
    (search : SearchInput) (user_id : String)
    (prior : Option (List Message)) (sessions : Sessions) (L : ℚ) :
    (run_agent_loop planner scrape sheets clock search user_id prior sessions L).result.summary ≠ "" ∧
    ((loopOf planner scrape sheets clock search user_id prior L).final_summary = "" →
      (run_agent_loop planner scrape sheets clock search user_id prior sessions L).result.summary =
        (if (loopOf planner scrape sheets clock search user_id prior L).state.sheet_url ≠ "" ∧
            0 < (loopOf planner scrape sheets clock search user_id prior L).state.num_results then
          "Found " ++ toString (loopOf planner scrape sheets clock search user_id prior L).state.num_results ++
            " listings in " ++ search.location ++ ". Google Sheet: " ++
            (loopOf planner scrape sheets clock search user_id prior L).state.sheet_url
        else if (loopOf planner scrape sheets clock search user_id prior L).state.last_error ≠ "" then
          "Found " ++ toString (loopOf planner scrape sheets clock search user_id prior L).state.num_results ++
            " listings in " ++ search.location ++ ", but sheet creation failed. " ++
            (loopOf planner scrape sheets clock search user_id prior L).state.last_error
        else
          "No listings found in " ++ search.location ++ " matching your criteria.")) ∧
    ((loopOf planner scrape sheets clock search user_id prior L).final_summary ≠ "" →
      (run_agent_loop planner scrape sheets clock search user_id prior sessions L).result.summary =
        (loopOf planner scrape sheets clock search user_id prior L).final_summary) := by
  rw [run_agent_loop_eq]
  refine ⟨?_, ?_, ?_⟩
  · by_cases h : (loopOf planner scrape sheets clock search user_id prior L).final_summary = ""
    · simp only [h, if_pos rfl]
      exact fallbackSummary_ne_empty _ _
    · simp only [if_neg h]
      exact h
  · intro h
    simp only [h, if_pos rfl]
    unfold fallbackSummary
    rfl
  · intro h
    simp only [if_neg h]

/-- C7 witness: a run whose planner gives no final text and whose search
collaborator raised, so the error-branch fallback summary is used. -/
theorem c7_summary_nonempty_witness :
    (loopOf cxPlannerSearchOnce cxScrape cxSheets cxClock { location := "Austin, TX" } "u" none 0).final_summary = "" ∧
    (run_agent_loop cxPlannerSearchOnce cxScrape cxSheets cxClock { location := "Austin, TX" }
      "u" none [] 0).result.summary ≠ "" ∧
    (run_agent_loop cxPlannerSearchOnce cxScrape cxSheets cxClock { location := "Austin, TX" }
      "u" none [] 0).result.summary =
      "Found 0 listings in Austin, TX, but sheet creation failed. boom" := by
  have h := c7_summary_nonempty cxPlannerSearchOnce cxScrape cxSheets cxClock
    { location := "Austin, TX" } "u" none [] 0
  exact ⟨rfl, h.1, (h.2.1 rfl).trans (by decide)⟩

/-- Storing a session makes it the one retrieved for that user. -/
theorem Sessions.get_set (s : Sessions) (k : String) (v : List Message) :
    Sessions.get (Sessions.set s k v) k = some v := by
  simp [Sessions.get, Sessions.set, List.find?_cons_of_pos]

/-- C9: on every exit of the agent loop the session store entry for the
user is replaced by the run's full conversation: the prior turns, the
instruction turn, and an appended transcript holding exactly one
assistant turn per planner call (appended unconditionally) plus the
combined tool-result user turns. -/
theorem c9_session_persisted (planner : List Message → PlannerResponse)
    (scrape : SearchInput → Except String DataFrame)
    (sheets : DataFrame → String → String → String → SheetResult)
    (clock : Nat → ℚ × ℚ)
    (search : SearchInput) (user_id : String)
    (prior : Option (List Message)) (sessions : Sessions) (L : ℚ) :
    ∃ suffix,
      Sessions.get (run_agent_loop planner scrape sheets clock search user_id prior sessions L).sessions
          user_id =
        some (run_agent_loop planner scrape sheets clock search user_id prior sessions L).messages ∧
      (run_agent_loop planner scrape sheets clock search user_id prior sessions L).messages =
        (prior.getD []) ++ (⟨"user", MsgContent.str (userPromptFor search)⟩ :: suffix) ∧
      (suffix.filter (fun m => m.role == "assistant")).length =
        (run_agent_loop planner scrape sheets clock search user_id prior sessions L).plannerCalls ∧
      (∀ m ∈ suffix, m.role = "assistant" ∨ m.role = "user") := by
  obtain ⟨suffix, hmsg, hcount, hrole⟩ := runLoopAux_transcript planner scrape sheets clock
    max_iterations ((prior.getD []) ++ [⟨"user", MsgContent.str (userPromptFor search)⟩])
    { search := some search, user_id := user_id } L 0 0 []
  refine ⟨suffix, ?_, ?_, ?_, hrole⟩
  · rw [run_agent_loop_eq]
    exact Sessions.get_set sessions user_id _
  · rw [run_agent_loop_eq]
    show (loopOf planner scrape sheets clock search user_id prior L).messages = _
    unfold loopOf
    rw [hmsg]
    simp
  · rw [run_agent_loop_eq]
    show _ = (loopOf planner scrape sheets clock search user_id prior L).plannerCalls
    unfold loopOf
    omega

/-- C8 counterexample: the run's criteria carry min_price 100000, the
overrides supply only a location, yet the merged criteria drop the price
and bed bounds instead of falling back to the run's values — only the
location falls back. -/
theorem c8_counterexample :
    cxCriteria.min_price = some 100000 ∧
    cxState.search = some cxCriteria ∧
    cxOverride.min_price = none ∧
    cxOverride.location = some "Dallas, TX" ∧
    (mergedSearch cxOverride cxState).location = "Dallas, TX" ∧
    (mergedSearch cxOverride cxState).min_price = none ∧
    (mergedSearch cxOverride cxState).max_price = none ∧
    (mergedSearch cxOverride cxState).min_beds = none :=
  ⟨rfl, rfl, rfl, rfl, rfl, rfl, rfl, rfl⟩

/-- C8 (amended): when the rate gate passes, the criteria used for the
external call are `mergedSearch`: supplied override fields take
precedence, but only the location falls back to the run's existing
criteria; unsupplied listing_type and past_days take their schema
defaults ("for_sale", 30) and every other unsupplied field is unset. -/
theorem c8_merge_semantics
    (scrape : SearchInput → Except String DataFrame)
    (sheets : DataFrame → String → String → String → SheetResult)
    (input : ToolInput) (st : RunState) (L t t' : ℚ) (l1 l2 : String) (n : Int)
    (hgate : ¬ (0 < L ∧ t - L < SEARCH_COOLDOWN_SECONDS)) :
    (executeTool scrape sheets "search_listings" input st L t t').trace =
      [Event.stampTime t', Event.callFetch (mergedSearch input st)] ∧
    (input.location = some l1 → (mergedSearch input st).location = l1) ∧
    (input.location = none →
      (mergedSearch input st).location = (match st.search with | some s => s.location | none => "")) ∧
    (input.listing_type = some l2 → (mergedSearch input st).listing_type = l2) ∧
    (input.listing_type = none → (mergedSearch input st).listing_type = "for_sale") ∧
    (mergedSearch input st).min_price = input.min_price ∧
    (mergedSearch input st).max_price = input.max_price ∧
    (mergedSearch input st).min_beds = input.min_beds ∧
    (mergedSearch input st).max_beds = input.max_beds ∧
    (mergedSearch input st).min_sqft = input.min_sqft ∧
    (mergedSearch input st).max_sqft = input.max_sqft ∧
    (mergedSearch input st).property_type = input.property_type ∧
    (input.past_days = some n → (mergedSearch input st).past_days = n) ∧
    (input.past_days = none → (mergedSearch input st).past_days = 30) := by
  refine ⟨(executeTool_search_pass scrape sheets input st L t t' hgate).1,
    ?_, ?_, ?_, ?_, rfl, rfl, rfl, rfl, rfl, rfl, rfl, ?_, ?_⟩
  all_goals intro h
  all_goals simp [mergedSearch, h]

/-- C8 witness: an override supplying only "Dallas, TX" merged onto the
Austin run state. -/
theorem c8_merge_semantics_witness :
    (¬ (0 < (0:ℚ) ∧ 0 - 0 < SEARCH_COOLDOWN_SECONDS)) ∧
    (executeTool cxScrape cxSheets "search_listings" cxOverride cxState 0 0 1).trace =
      [Event.stampTime 1, Event.callFetch (mergedSearch cxOverride cxState)] ∧
    (mergedSearch cxOverride cxState).location = "Dallas, TX" ∧
    (mergedSearch cxOverride cxState).listing_type = "for_sale" ∧
    (mergedSearch cxOverride cxState).min_price = cxOverride.min_price ∧
    (mergedSearch cxOverride cxState).past_days = 30 := by
  have h := c8_merge_semantics cxScrape cxSheets cxOverride cxState 0 0 1 "Dallas, TX" "x" 30
    (by norm_num [SEARCH_COOLDOWN_SECONDS])
  exact ⟨by norm_num [SEARCH_COOLDOWN_SECONDS], h.1, h.2.1 rfl, h.2.2.2.2.1 rfl,
    h.2.2.2.2.2.1, h.2.2.2.2.2.2.2.2.2.2.2.2.2 rfl⟩

/-- The price sort key is transitive. -/
theorem priceLE_trans (a b c : Row) (h1 : priceLE a b = true) (h2 : priceLE b c = true) :
    priceLE a c = true := by
  unfold priceLE at *
  cases ha : a.list_price <;> cases hb : b.list_price <;> cases hc : c.list_price <;>
    simp_all <;> omega

/-- The price sort key is total. -/
theorem priceLE_total (a b : Row) : priceLE a b || priceLE b a := by
  unfold priceLE
  cases ha : a.list_price <;> cases hb : b.list_price <;> simp <;> omega

/-- fetch_listings caps its output at 20 rows. -/
theorem fetch_listings_length_le (search : SearchInput) (properties : DataFrame) :
    (fetch_listings search properties).rows.length ≤ 20 := by
  unfold fetch_listings
  by_cases h : properties.rows.isEmpty
  · rw [if_pos h]
    rw [List.isEmpty_iff] at h
    simp [h]
  · rw [if_neg h]
    exact List.length_take_le _ _

/-- When the Price column is present, the rows of fetch_listings are
sorted ascending by price (missing prices last). -/
theorem fetch_listings_sorted (search : SearchInput) (properties : DataFrame)
    (hcol : "Price ($)" ∈ (fetch_listings search properties).cols) :
    (fetch_listings search properties).rows.Pairwise (fun a b => priceLE a b = true) := by
  unfold fetch_listings at hcol ⊢
  by_cases h : properties.rows.isEmpty
  · rw [if_pos h] at hcol ⊢
    rw [List.isEmpty_iff] at h
    rw [h]
    exact List.Pairwise.nil
  · rw [if_neg h] at hcol ⊢
    simp only at hcol ⊢
    rw [if_pos hcol]
    apply List.Pairwise.sublist (List.take_sublist _ _)
    have := @List.sorted_mergeSort Row priceLE
      (fun a b c => priceLE_trans a b c) (fun a b => priceLE_total a b)
      (applyFilters search properties.rows)
    simpa using this

/-- C10: fetch_listings returns at most 20 rows, sorted ascending by the
Price column when present, and a search tool call that passes the gate and
whose scrape succeeds records a num_results of at most 20 in the run
state. -/
theorem c10_results_capped (search : SearchInput) (properties : DataFrame)
    (scrape : SearchInput → Except String DataFrame)
    (sheets : DataFrame → String → String → String → SheetResult)
    (input : ToolInput) (st : RunState) (L t t' : ℚ)
    (hgate : ¬ (0 < L ∧ t - L < SEARCH_COOLDOWN_SECONDS))
    (hs : scrape (mergedSearch input st) = .ok properties) :
    (fetch_listings search properties).rows.length ≤ 20 ∧
    ("Price ($)" ∈ (fetch_listings search properties).cols →
      (fetch_listings search properties).rows.Pairwise (fun a b => priceLE a b = true)) ∧
    (executeTool scrape sheets "search_listings" input st L t t').state.num_results ≤ 20 := by
  refine ⟨fetch_listings_length_le search properties, fetch_listings_sorted search properties, ?_⟩
  unfold executeTool
  simp only [if_pos rfl, if_neg hgate]
  rw [hs]
  by_cases hemp : (fetch_listings (mergedSearch input st) properties).rows.isEmpty
  · simp only [if_pos hemp]
    exact fetch_listings_length_le _ _
  · simp only [if_neg hemp]
    exact fetch_listings_length_le _ _

/-- C10 witness: a three-row scraped frame; the resulting frame is sorted
and within the cap, and the recorded num_results is within the cap. -/
theorem c10_results_capped_witness :
    (¬ (0 < (0:ℚ) ∧ 0 - 0 < SEARCH_COOLDOWN_SECONDS)) ∧
    cxScrapeOk (mergedSearch cxOverride cxState) = .ok cxFrame ∧
    (fetch_listings cxCriteria cxFrame).rows.length ≤ 20 ∧
    ("Price ($)" ∈ (fetch_listings cxCriteria cxFrame).cols) ∧
    (fetch_listings cxCriteria cxFrame).rows.Pairwise (fun a b => priceLE a b = true) ∧
    (executeTool cxScrapeOk cxSheets "search_listings" cxOverride cxState 0 0 1).state.num_results ≤ 20 := by
  have h := c10_results_capped cxCriteria cxFrame cxScrapeOk cxSheets cxOverride cxState 0 0 1
    (by norm_num [SEARCH_COOLDOWN_SECONDS]) rfl
  exact ⟨by norm_num [SEARCH_COOLDOWN_SECONDS], rfl, h.1, by decide, h.2.1 (by decide), h.2.2⟩

end RealEstate
